import Mathlib

/-!
Verification of the file-sharing lambda handlers
(src/lambda/upload.py, src/lambda/download.py, src/lambda/presign.py,
src/lambda/options_handler.py) against their natural-language specification.

The handlers are shallowly embedded as total Lean functions.  Machine-level
conventions of the embedding:

* file bytes are `List Nat` with each entry `< 256`;
* the S3 bucket contents are an association list, most recent put first;
* every call a handler makes to the object store is recorded in an explicit
  trace (`StoreOp`), so side-effect claims (zero puts, read-only) are provable;
* a Python exception that escapes a handler is an `Except.error`; a caught
  exception becomes the structured error response the code builds;
* library routines the code calls (`base64.b64encode`/`b64decode`,
  `urllib.parse.unquote`, `json.loads`, `str.lower`) are modelled at the
  ASCII/byte level, which covers every input the handlers exchange; the
  model notes each such restriction at the definition.
-/

namespace FileSharing

/-- File contents: a sequence of bytes (each `< 256` where it matters). -/
abbrev Bytes := List Nat

/-! ### base64 (model of Python `base64.b64encode` / `base64.b64decode`) -/

/-- The standard base64 alphabet, index 0 to 63. -/
def b64Alphabet : List Char :=
  "ABCDEFGHIJKLMNOPQRSTUVWXYZabcdefghijklmnopqrstuvwxyz0123456789+/".data

/-- Character for a 6-bit group (defined for `n < 64`). -/
def encChar (n : Nat) : Char := b64Alphabet.getD n '?'

/-- Inverse of `encChar`: index of a character in the base64 alphabet. -/
def decChar (c : Char) : Option Nat :=
  let i := b64Alphabet.indexOf c
  if i < 64 then some i else none

/-- Model of `base64.b64encode`: 3-byte groups become 4 characters, with
`=` padding, exactly as in RFC 4648. -/
def b64encode : Bytes → List Char
  | [] => []
  | [a] => [encChar (a / 4), encChar (a % 4 * 16), '=', '=']
  | [a, b] => [encChar (a / 4), encChar (a % 4 * 16 + b / 16), encChar (b % 16 * 4), '=']
  | a :: b :: c :: rest =>
    encChar (a / 4) :: encChar (a % 4 * 16 + b / 16) ::
      encChar (b % 16 * 4 + c / 64) :: encChar (c % 64) :: b64encode rest

/-- Strict base64 decoding of a 4-character-aligned stream with trailing
padding, the core of `binascii.a2b_base64`. -/
def b64decodeCore : List Char → Option Bytes
  | [] => some []
  | c1 :: c2 :: c3 :: c4 :: rest =>
    match decChar c1, decChar c2 with
    | some v1, some v2 =>
      if c3 = '=' then
        if c4 = '=' ∧ rest = [] then some [v1 * 4 + v2 / 16] else none
      else
        match decChar c3 with
        | some v3 =>
          if c4 = '=' then
            if rest = [] then some [v1 * 4 + v2 / 16, v2 % 16 * 16 + v3 / 4] else none
          else
            match decChar c4 with
            | some v4 =>
              (b64decodeCore rest).map
                (fun bs => (v1 * 4 + v2 / 16) :: (v2 % 16 * 16 + v3 / 4) :: (v3 % 4 * 64 + v4) :: bs)
            | none => none
        | none => none
    | _, _ => none
  | _ => none

/-- Characters `base64.b64decode` keeps with its default `validate=False`:
the alphabet and the padding character. -/
def isB64Keep (c : Char) : Bool := (decChar c).isSome || c = '='

/-- Model of Python `base64.b64decode` with its default `validate=False`:
characters outside the alphabet (and not `=`) are discarded before decoding,
and improper padding makes decoding fail. -/
def b64decodePy (s : String) : Option Bytes :=
  b64decodeCore (s.data.filter isB64Keep)

/-! ### percent-decoding (model of `urllib.parse.unquote`) -/

/-- Value of a hexadecimal digit character, if it is one. -/
def hexDigit (c : Char) : Option Nat :=
  if '0' ≤ c ∧ c ≤ '9' then some (c.toNat - 48)
  else if 'a' ≤ c ∧ c ≤ 'f' then some (c.toNat - 87)
  else if 'A' ≤ c ∧ c ≤ 'F' then some (c.toNat - 55)
  else none

/-- Model of `urllib.parse.unquote` at the single-byte level: `%XX` with two
hex digits becomes the character of that code point, a `%` not followed by two
hex digits is kept literally.  (Python additionally UTF-8-decodes runs of
percent-escaped bytes; the models agree on all ASCII escapes, which is the
range the handlers exchange.) -/
def unquoteChars : List Char → List Char
  | '%' :: a :: b :: rest =>
    match hexDigit a, hexDigit b with
    | some x, some y => Char.ofNat (16 * x + y) :: unquoteChars rest
    | _, _ => '%' :: unquoteChars (a :: b :: rest)
  | c :: rest => c :: unquoteChars rest
  | [] => []

/-- Percent-decoding on strings. -/
def unquote (s : String) : String := ⟨unquoteChars s.data⟩

/-! ### JSON values and a model of `json.loads`

The parser covers objects, arrays, strings without escape sequences, integer
numerals, `true`, `false` and `null` — every body shape the upload handler
exchanges.  (Python additionally accepts string escapes and float/exponent
numerals; bodies using those are outside the fragment the claims exercise.) -/

inductive JVal where
  | jnull : JVal
  | jbool : Bool → JVal
  | jnum : Int → JVal
  | jstr : String → JVal
  | jarr : List JVal → JVal
  | jobj : List (String × JVal) → JVal
deriving Repr

/-- Opening brace character. -/
def lbrace : Char := Char.ofNat 123

/-- Closing brace character. -/
def rbrace : Char := Char.ofNat 125

/-- Skip JSON whitespace. -/
def skipWs : List Char → List Char
  | c :: rest =>
    if c = ' ' ∨ c = '\t' ∨ c = '\n' ∨ c = '\r' then skipWs rest else c :: rest
  | [] => []

/-- Consume the body of a string literal up to the closing quote.  Escape
sequences are not part of the modelled fragment (the parser rejects them). -/
def parseStrBody : List Char → Option (List Char × List Char)
  | [] => none
  | c :: rest =>
    if c = '"' then some ([], rest)
    else if c = '\\' then none
    else (parseStrBody rest).map (fun p => (c :: p.1, p.2))

/-- Longest digit run at the head of the input. -/
def spanDigits : List Char → List Char × List Char
  | [] => ([], [])
  | c :: rest =>
    if c.isDigit then
      let p := spanDigits rest
      (c :: p.1, p.2)
    else ([], c :: rest)

/-- Numeric value of a digit run. -/
def digitsToNat (ds : List Char) : Nat :=
  ds.foldl (fun acc c => acc * 10 + (c.toNat - 48)) 0

mutual

/-- Parse one JSON value (fuel-bounded recursion). -/
def parseVal : Nat → List Char → Option (JVal × List Char)
  | 0, _ => none
  | fuel + 1, input =>
    match skipWs input with
    | [] => none
    | c :: rest =>
      if c = '"' then
        match parseStrBody rest with
        | some (cs, rest2) => some (.jstr ⟨cs⟩, rest2)
        | none => none
      else if c = lbrace then
        match skipWs rest with
        | c2 :: rest2 =>
          if c2 = rbrace then some (.jobj [], rest2)
          else
            match parseMembers fuel (c2 :: rest2) with
            | some (fs, rest3) => some (.jobj fs, rest3)
            | none => none
        | [] => none
      else if c = '[' then
        match skipWs rest with
        | c2 :: rest2 =>
          if c2 = ']' then some (.jarr [], rest2)
          else
            match parseItems fuel (c2 :: rest2) with
            | some (xs, rest3) => some (.jarr xs, rest3)
            | none => none
        | [] => none
      else if c = 't' then
        match rest with
        | 'r' :: 'u' :: 'e' :: rest2 => some (.jbool true, rest2)
        | _ => none
      else if c = 'f' then
        match rest with
        | 'a' :: 'l' :: 's' :: 'e' :: rest2 => some (.jbool false, rest2)
        | _ => none
      else if c = 'n' then
        match rest with
        | 'u' :: 'l' :: 'l' :: rest2 => some (.jnull, rest2)
        | _ => none
      else if c = '-' then
        match spanDigits rest with
        | ([], _) => none
        | (ds, rest2) => some (.jnum (-(Int.ofNat (digitsToNat ds))), rest2)
      else if c.isDigit then
        match spanDigits (c :: rest) with
        | (ds, rest2) => some (.jnum (Int.ofNat (digitsToNat ds)), rest2)
      else none

/-- Parse the members of a JSON object after the opening brace (at least one). -/
def parseMembers : Nat → List Char → Option (List (String × JVal) × List Char)
  | 0, _ => none
  | fuel + 1, input =>
    match skipWs input with
    | [] => none
    | c :: rest =>
      if c = '"' then
        match parseStrBody rest with
        | some (key, rest2) =>
          match skipWs rest2 with
          | c2 :: rest3 =>
            if c2 = ':' then
              match parseVal fuel rest3 with
              | some (v, rest4) =>
                match skipWs rest4 with
                | c3 :: rest5 =>
                  if c3 = ',' then
                    match parseMembers fuel rest5 with
                    | some (fs, rest6) => some ((⟨key⟩, v) :: fs, rest6)
                    | none => none
                  else if c3 = rbrace then some ([(⟨key⟩, v)], rest5)
                  else none
                | [] => none
              | none => none
            else none
          | [] => none
        | none => none
      else none

/-- Parse the items of a JSON array after the opening bracket (at least one). -/
def parseItems : Nat → List Char → Option (List JVal × List Char)
  | 0, _ => none
  | fuel + 1, input =>
    match parseVal fuel input with
    | some (v, rest) =>
      match skipWs rest with
      | c :: rest2 =>
        if c = ',' then
          match parseItems fuel rest2 with
          | some (xs, rest3) => some (v :: xs, rest3)
          | none => none
        else if c = ']' then some ([v], rest2)
        else none
      | [] => none
    | none => none

end

/-- Model of Python `json.loads`: parse one value, allow trailing whitespace
only. -/
def jsonLoads (s : String) : Option JVal :=
  match parseVal (s.length + 1) s.data with
  | some (v, rest) => if skipWs rest = [] then some v else none
  | none => none

/-- Lookup in a parsed JSON object with Python `dict` semantics: a repeated
key keeps its last value. -/
def jGet (fields : List (String × JVal)) (k : String) : Option JVal :=
  (fields.reverse.find? (fun p => p.1 = k)).map (fun p => p.2)

/-- Python truthiness of a JSON value (`if not x`). -/
def jFalsy : JVal → Bool
  | .jnull => true
  | .jbool b => !b
  | .jnum n => n == 0
  | .jstr s => s == ""
  | .jarr xs => xs.isEmpty
  | .jobj fs => fs.isEmpty

/-! ### Object store and effect traces -/

/-- Contents of the configured bucket: an association list from object key to
byte payload, most recent put first. -/
abbrev Store := List (String × Bytes)

/-- Read an object (model of `s3.get_object`): the most recent put wins. -/
def storeGet (s : Store) (k : String) : Option Bytes :=
  (s.find? (fun p => p.1 = k)).map (fun p => p.2)

/-- Write an object (model of `s3.put_object`): overwrites any previous
object with the same key. -/
def storePut (s : Store) (k : String) (v : Bytes) : Store := (k, v) :: s

/-- One call a handler makes on the object store. -/
inductive StoreOp where
  | put : String → String → Bytes → StoreOp
  | get : String → String → StoreOp
  | presignGet : String → String → Nat → StoreOp
deriving Repr, DecidableEq

/-- Effect of a trace of store calls on the bucket contents: only puts
change the store. -/
def applyOps (s : Store) : List StoreOp → Store
  | [] => s
  | .put _ k v :: rest => applyOps (storePut s k v) rest
  | .get _ _ :: rest => applyOps s rest
  | .presignGet _ _ _ :: rest => applyOps s rest

/-- Whether a trace contains any put. -/
def hasPut (ops : List StoreOp) : Bool :=
  ops.any (fun op =>
    match op with
    | .put _ _ _ => true
    | _ => false)

/-! ### Responses -/

/-- An API-Gateway-style lambda response.  Python handlers that omit the
`isBase64Encoded` field are modelled with its default `false`. -/
structure Response where
  statusCode : Nat
  headers : List (String × String)
  body : String
  isBase64Encoded : Bool := false
deriving Repr, DecidableEq

/-- Response header lookup. -/
def hdrGet (r : Response) (k : String) : Option String :=
  (r.headers.find? (fun p => p.1 = k)).map (fun p => p.2)

/-- The three wildcard CORS headers shared by every data-path response, in
source order. -/
def corsHeaders : List (String × String) :=
  [("Access-Control-Allow-Origin", "*"),
   ("Access-Control-Allow-Headers", "*"),
   ("Access-Control-Allow-Methods", "*")]

/-- Model of `json.dumps` on a one-key error dict (default separators). -/
def jsonErrBody (msg : String) : String :=
  "\x7b\"error\": \"" ++ msg ++ "\"\x7d"

/-- A response with just the CORS headers and a body (the shape of every
error return in download.py and presign.py). -/
def mkCorsResp (status : Nat) (body : String) : Response :=
  { statusCode := status, headers := corsHeaders, body := body }

/-! ### Upload handler (src/lambda/upload.py) -/

/-- The upload event: `headers`, `body` and `isBase64Encoded` keys, each
possibly absent (`none`). -/
structure UploadEvent where
  headers : Option (List (String × String)) := none
  body : Option String := none
  isBase64Encoded : Option Bool := none
deriving Repr, DecidableEq

/-- Model of Python `str.lower` on ASCII strings. -/
def strLower (s : String) : String := ⟨s.data.map Char.toLower⟩

/-- Lookup with Python `dict` semantics on an association list built by a
comprehension: for a repeated key the last value wins. -/
def dictGetLast (l : List (String × String)) (k : String) : Option String :=
  (l.reverse.find? (fun p => p.1 = k)).map (fun p => p.2)

/-- The error response built by upload.py in its blanket `except` branch:
status 500, the CORS headers plus `Content-Type`, and a `json.dumps` error
body holding `str(e)`. -/
def uploadErrResp (msg : String) : Response :=
  { statusCode := 500,
    headers := corsHeaders ++ [("Content-Type", "application/json")],
    body := jsonErrBody msg }

/-- Model of `json.dumps` on the upload success dict (insertion order). -/
def uploadSuccessBody (n : String) : String :=
  "\x7b\"message\": \"File uploaded successfully\", \"file_name\": \"" ++ n ++ "\"\x7d"

/-- The success response of upload.py: status 200 with the CORS headers. -/
def uploadOkResp (n : String) : Response :=
  { statusCode := 200, headers := corsHeaders, body := uploadSuccessBody n }

/-- Model of `bytes.decode` restricted to ASCII payloads (the only payloads
the claims exchange through the base64-wrapped-body path); a byte outside
ASCII makes the model fail like a `UnicodeDecodeError`. -/
def asciiDecode (bs : Bytes) : Option String :=
  if bs.all (fun b => b < 128) then some ⟨bs.map Char.ofNat⟩ else none

/-- Shallow embedding of `lambda_handler` in src/lambda/upload.py.

`env` is `os.environ` restricted to `BUCKET_NAME` (`none` = unset).  The
whole body runs inside `try: ... except Exception as e:` returning
`uploadErrResp (str e)`, so the result is always a `Response`; a raised and
caught exception is modelled by returning `uploadErrResp` with that
exception message directly.  The messages on paths no claim exercises
(invalid wrapped base64, non-JSON body, non-object body, non-string
`file_content`) stand in for the varying Python exception texts. -/
def uploadHandler (env : Option String) (e : UploadEvent) (store : Store) :
    Response × Store × List StoreOp :=
  match env with
  | none =>
    -- os.environ["BUCKET_NAME"] raises KeyError("BUCKET_NAME"); str(e) is the
    -- repr of the key, with quotes.
    (uploadErrResp "\x27BUCKET_NAME\x27", store, [])
  | some bucket =>
    let hs := (e.headers.getD []).map (fun p => (strLower p.1, p.2))
    let fileName := (dictGetLast hs "file-name").getD ""
    if fileName = "" then (uploadErrResp "Missing file-name header", store, [])
    else
      match e.body with
      | none => (uploadErrResp "\x27body\x27", store, [])
      | some rawBody =>
        let unwrapped : Option String :=
          if e.isBase64Encoded.getD false then
            match b64decodePy rawBody with
            | some bs => asciiDecode bs
            | none => none
          else some rawBody
        match unwrapped with
        | none => (uploadErrResp "Invalid base64-encoded body", store, [])
        | some bodyStr =>
          match jsonLoads bodyStr with
          | none => (uploadErrResp "Expecting value", store, [])
          | some (.jobj fields) =>
            match jGet fields "file_content" with
            | none => (uploadErrResp "\x27file_content\x27", store, [])
            | some v =>
              if jFalsy v then (uploadErrResp "Missing file_content in body", store, [])
              else
                match v with
                | .jstr s =>
                  match b64decodePy s with
                  | some fileContent =>
                    (uploadOkResp fileName, storePut store fileName fileContent,
                      [StoreOp.put bucket fileName fileContent])
                  | none => (uploadErrResp "Invalid base64-encoded string", store, [])
                | _ => (uploadErrResp "argument should be a bytes-like object or ASCII string",
                    store, [])
          | some _ => (uploadErrResp "body is not a JSON object", store, [])

/-! ### Download handler (src/lambda/download.py) -/

/-- The download event.  `pathParameters` distinguishes the key being absent
(outer `none`, a `KeyError` the code catches) from present-but-null (inner
`none`, which makes the subscript raise `TypeError`). -/
structure DownloadEvent where
  pathParameters : Option (Option (List (String × String))) := none
deriving Repr, DecidableEq

/-- The message of the `TypeError` raised by subscripting `None`. -/
def noneSubscriptErr : String :=
  "TypeError: \x27NoneType\x27 object is not subscriptable"

/-- The 200 response of download.py: octet-stream content type, an
attachment disposition naming the decoded key, base64 body. -/
def dlOkResp (fileKey : String) (content : Bytes) : Response :=
  { statusCode := 200,
    headers := corsHeaders ++
      [("Content-Type", "application/octet-stream"),
       ("Content-Disposition", "attachment; filename=\"" ++ fileKey ++ "\"")],
    body := ⟨b64encode content⟩,
    isBase64Encoded := true }

/-- Shallow embedding of `lambda_handler` in src/lambda/download.py.

`Except.error` marks a Python exception escaping the handler (only the
`try` around the path-parameter read exists, and it catches `KeyError`
alone, so the `TypeError` from a null `pathParameters` propagates).  The
trace records the single `get_object` call; an absent object is the
`NoSuchKey` branch. -/
def downloadHandler (env : Option String) (e : DownloadEvent) (store : Store) :
    Except String Response × List StoreOp :=
  if env.getD "" = "" then
    (.ok (mkCorsResp 500 (jsonErrBody "Bucket name environment variable is missing")), [])
  else
    match e.pathParameters with
    | none => (.ok (mkCorsResp 400 (jsonErrBody "Missing file_key path parameter")), [])
    | some none => (.error noneSubscriptErr, [])
    | some (some params) =>
      match dictGetLast params "file_key" with
      | none => (.ok (mkCorsResp 400 (jsonErrBody "Missing file_key path parameter")), [])
      | some rawKey =>
        match storeGet store (unquote rawKey) with
        | some content =>
          (.ok (dlOkResp (unquote rawKey) content), [StoreOp.get (env.getD "") (unquote rawKey)])
        | none =>
          (.ok (mkCorsResp 404 (jsonErrBody "File not found")),
            [StoreOp.get (env.getD "") (unquote rawKey)])

/-! ### Presign handler (src/lambda/presign.py) -/

/-- The presign event: an optional Cognito `triggerSource` discriminator and
optional-or-null `queryStringParameters`. -/
structure PresignEvent where
  triggerSource : Option String := none
  queryStringParameters : Option (Option (List (String × String))) := none
deriving Repr, DecidableEq

/-- Whether the first list begins with the second (model of Python
str.startswith at the character level). -/
def charsStartWith : List Char → List Char → Bool
  | _, [] => true
  | [], _ :: _ => false
  | c :: cs, p :: ps => c = p && charsStartWith cs ps

/-- Model of Python `str.startswith`. -/
def strStartsWith (s pre : String) : Bool := charsStartWith s.data pre.data

/-- Model of the URL boto3 computes locally for a presigned get. -/
def presignUrl (bucket key : String) (expiry : Nat) : String :=
  "https://" ++ bucket ++ ".s3.amazonaws.com/" ++ key ++ "?X-Amz-Expires=" ++ toString expiry

/-- Model of `generate_presigned_url`: the signature is computed locally
without a network round trip, so generation succeeds. -/
def generatePresignedUrl (bucket key : String) (expiry : Nat) : Option String :=
  some (presignUrl bucket key expiry)

/-- Model of `json.dumps` on the presign success dict. -/
def presignOkBody (url : String) : String :=
  "\x7b\"url\": \"" ++ url ++ "\"\x7d"

/-- The 200 response of presign.py. -/
def presignOkResp (url : String) : Response :=
  { statusCode := 200,
    headers := corsHeaders ++ [("Content-Type", "application/json")],
    body := presignOkBody url }

/-- Result of the presign handler: either the echoed Cognito event or an API
response. -/
inductive PresignOut where
  | passthrough : PresignEvent → PresignOut
  | resp : Response → PresignOut
deriving Repr, DecidableEq

/-- The message of the `AttributeError` raised by calling `.get` on `None`. -/
def noneGetAttrErr : String :=
  "AttributeError: \x27NoneType\x27 object has no attribute \x27get\x27"

/-- Shallow embedding of `lambda_handler` in src/lambda/presign.py.

The Cognito pass-through check comes first and returns the event unchanged.
The handler has no blanket `except`, so the `AttributeError` from
`None.get` when `queryStringParameters` is present but null escapes
(`Except.error`).  The `presigned_url is None` branch of the source is kept,
dead under the always-successful local URL computation. -/
def presignHandler (env : Option String) (e : PresignEvent) :
    Except String PresignOut × List StoreOp :=
  if (e.triggerSource.map (fun t => strStartsWith t "PreSignUp_")).getD false then
    (.ok (.passthrough e), [])
  else if env.getD "" = "" then
    (.ok (.resp (mkCorsResp 500 (jsonErrBody "Bucket name environment variable is missing"))), [])
  else
    match e.queryStringParameters with
    | some none => (.error noneGetAttrErr, [])
    | none => (.ok (.resp (mkCorsResp 400 (jsonErrBody "file_name query parameter is required"))), [])
    | some (some params) =>
      if (dictGetLast params "file_name").getD "" = "" then
        (.ok (.resp (mkCorsResp 400 (jsonErrBody "file_name query parameter is required"))), [])
      else
        match generatePresignedUrl (env.getD "") ((dictGetLast params "file_name").getD "") 3600 with
        | none =>
          (.ok (.resp (mkCorsResp 500 (jsonErrBody "Could not generate presigned URL"))),
            [StoreOp.presignGet (env.getD "") ((dictGetLast params "file_name").getD "") 3600])
        | some url =>
          (.ok (.resp (presignOkResp url)),
            [StoreOp.presignGet (env.getD "") ((dictGetLast params "file_name").getD "") 3600])

/-! ### CORS preflight handler (src/lambda/options_handler.py) -/

/-- Shallow embedding of `lambda_handler` in src/lambda/options_handler.py:
a constant response (the event and context are never consulted). -/
def optionsHandler : Response :=
  { statusCode := 200,
    headers :=
      [("Access-Control-Allow-Origin", "*"),
       ("Access-Control-Allow-Headers",
         "Content-Type,X-Amz-Date,Authorization,X-Api-Key,X-Amz-Security-Token,file-name"),
       ("Access-Control-Allow-Methods", "GET,POST,OPTIONS"),
       ("Content-Type", "application/json")],
    body := "\x7b\x7d" }

/-- Status of a handler outcome, `none` when an exception escaped. -/
def respStatus (x : Except String Response) : Option Nat :=
  match x with
  | .ok r => some r.statusCode
  | .error _ => none

/-- A response carries the three wildcard CORS headers. -/
def corsOk (r : Response) : Prop :=
  hdrGet r "Access-Control-Allow-Origin" = some "*" ∧
  hdrGet r "Access-Control-Allow-Headers" = some "*" ∧
  hdrGet r "Access-Control-Allow-Methods" = some "*"

/-! ## Library lemmas -/

theorem decChar_encChar : ∀ n, n < 64 → decChar (encChar n) = some n := by decide

theorem encChar_ne_pad : ∀ n, n < 64 → encChar n ≠ '=' := by decide

theorem isB64Keep_encChar : ∀ n, n < 64 → isB64Keep (encChar n) = true := by decide

theorem isB64Keep_pad : isB64Keep '=' = true := by decide

/-- Decoding inverts encoding on byte sequences. -/
theorem b64_roundtrip (B : Bytes) (h : ∀ b ∈ B, b < 256) :
    b64decodeCore (b64encode B) = some B := by
  induction B using b64encode.induct with
  | case1 => rfl
  | case2 a =>
    have ha : a < 256 := h a (by simp)
    have e1 : decChar (encChar (a / 4)) = some (a / 4) := decChar_encChar _ (by omega)
    have e2 : decChar (encChar (a % 4 * 16)) = some (a % 4 * 16) := decChar_encChar _ (by omega)
    simp only [b64encode, b64decodeCore, e1, e2, eq_self_iff_true, and_self, if_true]
    have h1 : a / 4 * 4 + a % 4 * 16 / 16 = a := by omega
    rw [h1]
  | case3 a b =>
    have ha : a < 256 := h a (by simp)
    have hb : b < 256 := h b (by simp)
    have e1 : decChar (encChar (a / 4)) = some (a / 4) := decChar_encChar _ (by omega)
    have e2 : decChar (encChar (a % 4 * 16 + b / 16)) = some (a % 4 * 16 + b / 16) :=
      decChar_encChar _ (by omega)
    have e3 : decChar (encChar (b % 16 * 4)) = some (b % 16 * 4) := decChar_encChar _ (by omega)
    have n3 : ¬ encChar (b % 16 * 4) = '=' := encChar_ne_pad _ (by omega)
    simp only [b64encode, b64decodeCore, e1, e2, e3, if_neg n3, eq_self_iff_true, and_self,
      if_true]
    have h1 : a / 4 * 4 + (a % 4 * 16 + b / 16) / 16 = a := by omega
    have h2 : (a % 4 * 16 + b / 16) % 16 * 16 + b % 16 * 4 / 4 = b := by omega
    rw [h1, h2]
  | case4 a b c rest ih =>
    have ha : a < 256 := h a (by simp)
    have hb : b < 256 := h b (by simp)
    have hc : c < 256 := h c (by simp)
    have hrest : ∀ x ∈ rest, x < 256 := fun x hx => h x (by simp [hx])
    have e1 : decChar (encChar (a / 4)) = some (a / 4) := decChar_encChar _ (by omega)
    have e2 : decChar (encChar (a % 4 * 16 + b / 16)) = some (a % 4 * 16 + b / 16) :=
      decChar_encChar _ (by omega)
    have e3 : decChar (encChar (b % 16 * 4 + c / 64)) = some (b % 16 * 4 + c / 64) :=
      decChar_encChar _ (by omega)
    have e4 : decChar (encChar (c % 64)) = some (c % 64) := decChar_encChar _ (by omega)
    have n3 : ¬ encChar (b % 16 * 4 + c / 64) = '=' := encChar_ne_pad _ (by omega)
    have n4 : ¬ encChar (c % 64) = '=' := encChar_ne_pad _ (by omega)
    simp only [b64encode, b64decodeCore, e1, e2, e3, e4, if_neg n3, if_neg n4, ih hrest,
      Option.map_some]
    have h1 : a / 4 * 4 + (a % 4 * 16 + b / 16) / 16 = a := by omega
    have h2 : (a % 4 * 16 + b / 16) % 16 * 16 + (b % 16 * 4 + c / 64) / 4 = b := by omega
    have h3 : (b % 16 * 4 + c / 64) % 4 * 64 + c % 64 = c := by omega
    rw [h1, h2, h3]
    rfl

/-- The characters the encoder emits survive the filter of the decoder. -/
theorem filter_b64encode (B : Bytes) (h : ∀ b ∈ B, b < 256) :
    (b64encode B).filter isB64Keep = b64encode B := by
  induction B using b64encode.induct with
  | case1 => rfl
  | case2 a =>
    have ha : a < 256 := h a (by simp)
    have k1 : isB64Keep (encChar (a / 4)) = true := isB64Keep_encChar _ (by omega)
    have k2 : isB64Keep (encChar (a % 4 * 16)) = true := isB64Keep_encChar _ (by omega)
    simp [b64encode, k1, k2, isB64Keep_pad]
  | case3 a b =>
    have ha : a < 256 := h a (by simp)
    have hb : b < 256 := h b (by simp)
    have k1 : isB64Keep (encChar (a / 4)) = true := isB64Keep_encChar _ (by omega)
    have k2 : isB64Keep (encChar (a % 4 * 16 + b / 16)) = true := isB64Keep_encChar _ (by omega)
    have k3 : isB64Keep (encChar (b % 16 * 4)) = true := isB64Keep_encChar _ (by omega)
    simp [b64encode, k1, k2, k3, isB64Keep_pad]
  | case4 a b c rest ih =>
    have ha : a < 256 := h a (by simp)
    have hb : b < 256 := h b (by simp)
    have hc : c < 256 := h c (by simp)
    have hrest : ∀ x ∈ rest, x < 256 := fun x hx => h x (by simp [hx])
    have k1 : isB64Keep (encChar (a / 4)) = true := isB64Keep_encChar _ (by omega)
    have k2 : isB64Keep (encChar (a % 4 * 16 + b / 16)) = true := isB64Keep_encChar _ (by omega)
    have k3 : isB64Keep (encChar (b % 16 * 4 + c / 64)) = true := isB64Keep_encChar _ (by omega)
    have k4 : isB64Keep (encChar (c % 64)) = true := isB64Keep_encChar _ (by omega)
    simp [b64encode, k1, k2, k3, k4, ih hrest]

/-- Python decode inverts Python encode on byte strings. -/
theorem b64decodePy_encode (B : Bytes) (h : ∀ b ∈ B, b < 256) :
    b64decodePy ⟨b64encode B⟩ = some B := by
  show b64decodeCore ((b64encode B).filter isB64Keep) = some B
  rw [filter_b64encode B h, b64_roundtrip B h]

/-- Encoding a nonempty byte sequence yields a nonempty string. -/
theorem b64encode_ne_nil (B : Bytes) (h : B ≠ []) : b64encode B ≠ [] := by
  match B, h with
  | [a], _ => simp [b64encode]
  | [a, b], _ => simp [b64encode]
  | a :: b :: c :: rest, _ => simp [b64encode]

theorem mkStr_beq_empty_false (l : List Char) (h : l ≠ []) :
    ((⟨l⟩ : String) == "") = false := by
  rw [beq_eq_false_iff_ne]
  intro hc
  exact h (congrArg String.data hc)

/-- A lookup over keys none of which matches yields nothing. -/
theorem dictGetLast_eq_none (l : List (String × String)) (k : String)
    (h : ∀ p ∈ l, p.1 ≠ k) : dictGetLast l k = none := by
  unfold dictGetLast
  rw [List.find?_eq_none.mpr]
  · rfl
  · intro x hx
    simpa using h x (List.mem_reverse.mp hx)

theorem corsOk_uploadErrResp (msg : String) : corsOk (uploadErrResp msg) := ⟨rfl, rfl, rfl⟩

theorem corsOk_uploadOkResp (n : String) : corsOk (uploadOkResp n) := ⟨rfl, rfl, rfl⟩

theorem corsOk_mkCorsResp (st : Nat) (b : String) : corsOk (mkCorsResp st b) := ⟨rfl, rfl, rfl⟩

theorem corsOk_dlOkResp (fk : String) (content : Bytes) : corsOk (dlOkResp fk content) :=
  ⟨rfl, rfl, rfl⟩

theorem corsOk_presignOkResp (url : String) : corsOk (presignOkResp url) := ⟨rfl, rfl, rfl⟩

/-- Every upload response is either the blanket 500 error response or the
200 success response. -/
theorem upload_resp_shape (env : Option String) (e : UploadEvent) (store : Store) :
    (∃ m, (uploadHandler env e store).1 = uploadErrResp m) ∨
    (∃ n, (uploadHandler env e store).1 = uploadOkResp n) := by
  unfold uploadHandler
  rcases env with _ | bucket
  · exact .inl ⟨_, rfl⟩
  · simp only
    repeat' split
    all_goals first
      | exact .inl ⟨_, rfl⟩
      | exact .inr ⟨_, rfl⟩

/-- Every response the download handler returns (when no exception escapes)
is a bare CORS response or the 200 attachment response. -/
theorem download_ok_shape (env : Option String) (e : DownloadEvent) (store : Store)
    (r : Response) (h : (downloadHandler env e store).1 = .ok r) :
    (∃ st b, r = mkCorsResp st b) ∨ (∃ fk c, r = dlOkResp fk c) := by
  unfold downloadHandler at h
  repeat' split at h
  all_goals first
    | (injection h with h; exact .inl ⟨_, _, h.symm⟩)
    | (injection h with h; exact .inr ⟨_, _, h.symm⟩)
    | exact Except.noConfusion h

/-- The download handler only lets an exception escape when the path
parameters are present but null. -/
theorem download_total (env : Option String) (e : DownloadEvent) (store : Store)
    (h : e.pathParameters ≠ some none) :
    ∃ r, (downloadHandler env e store).1 = .ok r := by
  obtain ⟨pp⟩ := e
  rcases pp with _ | (_ | params)
  · unfold downloadHandler
    repeat' split
    all_goals first
      | exact ⟨_, rfl⟩
      | simp_all
  · exact absurd rfl h
  · unfold downloadHandler
    repeat' split
    all_goals first
      | exact ⟨_, rfl⟩
      | simp_all

/-- Every API response of the presign handler is a bare CORS response or the
200 url response. -/
theorem presign_ok_shape (env : Option String) (e : PresignEvent) (r : Response)
    (h : (presignHandler env e).1 = .ok (.resp r)) :
    (∃ st b, r = mkCorsResp st b) ∨ (∃ u, r = presignOkResp u) := by
  unfold presignHandler at h
  repeat' split at h
  all_goals first
    | (injection h with h; injection h with h; exact .inl ⟨_, _, h.symm⟩)
    | (injection h with h; injection h with h; exact .inr ⟨_, h.symm⟩)
    | (injection h with h; exact PresignOut.noConfusion h)
    | exact Except.noConfusion h

/-- The presign handler only lets an exception escape when the query string
parameters are present but null. -/
theorem presign_total (env : Option String) (e : PresignEvent)
    (h : e.queryStringParameters ≠ some none) :
    ∃ o, (presignHandler env e).1 = .ok o := by
  obtain ⟨ts, qs⟩ := e
  rcases qs with _ | (_ | params)
  · unfold presignHandler
    repeat' split
    all_goals first
      | exact ⟨_, rfl⟩
      | simp_all
  · exact absurd rfl h
  · unfold presignHandler
    repeat' split
    all_goals first
      | exact ⟨_, rfl⟩
      | simp_all

theorem storeGet_storePut_same (s : Store) (k : String) (v : Bytes) :
    storeGet (storePut s k v) k = some v := by
  simp [storeGet, storePut]

/-- The upload handler on a well-formed request: stores the decoded bytes
under the header name and reports success. -/
theorem upload_hit (bkt N bodyStr : String) (fields : List (String × JVal)) (B : Bytes)
    (store : Store) (hN : N ≠ "") (hB : B ≠ [])
    (hparse : jsonLoads bodyStr = some (.jobj fields))
    (hfc : jGet fields "file_content" = some (.jstr ⟨b64encode B⟩))
    (hdec : b64decodePy ⟨b64encode B⟩ = some B) :
    uploadHandler (some bkt) { headers := some [("file-name", N)], body := some bodyStr } store =
      (uploadOkResp N, storePut store N B, [StoreOp.put bkt N B]) := by
  have hfalse : jFalsy (JVal.jstr ⟨b64encode B⟩) = false := by
    simp only [jFalsy]
    exact mkStr_beq_empty_false _ (b64encode_ne_nil B hB)
  have hlow : strLower "file-name" = "file-name" := rfl
  have hfn : dictGetLast [("file-name", N)] "file-name" = some N := by
    simp [dictGetLast]
  unfold uploadHandler
  simp only [Option.getD_some, List.map_cons, List.map_nil, hlow, hfn, if_neg hN,
    Option.getD_none, Bool.false_eq_true, if_false, hparse, hfc, hfalse, hdec]

/-- The download handler on a present object: the 200 attachment response. -/
theorem download_hit (env : Option String) (bkt rawKey : String) (store : Store)
    (content : Bytes) (henv : env = some bkt) (hbkt : bkt ≠ "")
    (hget : storeGet store (unquote rawKey) = some content) :
    downloadHandler env { pathParameters := some (some [("file_key", rawKey)]) } store =
      (.ok (dlOkResp (unquote rawKey) content), [StoreOp.get bkt (unquote rawKey)]) := by
  subst henv
  have hk : dictGetLast [("file_key", rawKey)] "file_key" = some rawKey := by
    simp [dictGetLast]
  unfold downloadHandler
  simp only [Option.getD_some, if_neg hbkt, hk, hget]

/-- The download handler on an absent object: the 404 response. -/
theorem download_miss (env : Option String) (bkt rawKey : String) (store : Store)
    (henv : env = some bkt) (hbkt : bkt ≠ "")
    (hget : storeGet store (unquote rawKey) = none) :
    downloadHandler env { pathParameters := some (some [("file_key", rawKey)]) } store =
      (.ok (mkCorsResp 404 (jsonErrBody "File not found")), [StoreOp.get bkt (unquote rawKey)]) := by
  subst henv
  have hk : dictGetLast [("file_key", rawKey)] "file_key" = some rawKey := by
    simp [dictGetLast]
  unfold downloadHandler
  simp only [Option.getD_some, if_neg hbkt, hk, hget]

/-! ## Claims -/

/-- C4: for every event whose triggerSource starts with the prefix
PreSignUp_, the presign handler returns that event unchanged and makes no
object-store calls, regardless of bucket configuration and of any query
parameters. -/
theorem c4_presign_passthrough (env : Option String) (e : PresignEvent) (t : String)
    (ht : e.triggerSource = some t) (hpre : strStartsWith t "PreSignUp_" = true) :
    presignHandler env e = (.ok (.passthrough e), []) := by
  unfold presignHandler
  rw [ht]
  simp [hpre]

theorem c4_presign_passthrough_witness :
    presignHandler none
      { triggerSource := some "PreSignUp_AdminCreateUser",
        queryStringParameters := some (some [("file_name", "x")]) } =
      (.ok (.passthrough
        { triggerSource := some "PreSignUp_AdminCreateUser",
          queryStringParameters := some (some [("file_name", "x")]) }), []) :=
  c4_presign_passthrough none _ "PreSignUp_AdminCreateUser" rfl (by decide)

/-- C6: for every download request whose percent-decoded file_key names a
present object (bucket configured), the handler returns 200 with
octet-stream content type, an attachment disposition naming the decoded
key, the base64 encoding of the stored bytes as body, and
isBase64Encoded true. -/
theorem c6_download_success (env : Option String) (bkt rawKey : String) (store : Store)
    (content : Bytes) (henv : env = some bkt) (hbkt : bkt ≠ "")
    (hget : storeGet store (unquote rawKey) = some content) :
    (downloadHandler env { pathParameters := some (some [("file_key", rawKey)]) } store).1 =
      .ok { statusCode := 200,
            headers :=
              [("Access-Control-Allow-Origin", "*"),
               ("Access-Control-Allow-Headers", "*"),
               ("Access-Control-Allow-Methods", "*"),
               ("Content-Type", "application/octet-stream"),
               ("Content-Disposition", "attachment; filename=\"" ++ unquote rawKey ++ "\"")],
            body := ⟨b64encode content⟩,
            isBase64Encoded := true } := by
  rw [download_hit env bkt rawKey store content henv hbkt hget]
  rfl

theorem c6_download_success_witness :
    (downloadHandler (some "b") { pathParameters := some (some [("file_key", "test%20file.txt")]) }
        [("test file.txt", [72, 73])]).1 =
      .ok { statusCode := 200,
            headers :=
              [("Access-Control-Allow-Origin", "*"),
               ("Access-Control-Allow-Headers", "*"),
               ("Access-Control-Allow-Methods", "*"),
               ("Content-Type", "application/octet-stream"),
               ("Content-Disposition", "attachment; filename=\"test file.txt\"")],
            body := "SEk=",
            isBase64Encoded := true } :=
  c6_download_success (some "b") "b" "test%20file.txt" [("test file.txt", [72, 73])] [72, 73]
    rfl (by decide) (by decide)

/-- C7: for every download request whose percent-decoded file_key names an
absent object (bucket configured), the handler returns 404 with body
exactly the error File not found, and the store state is unchanged. -/
theorem c7_download_not_found (env : Option String) (bkt rawKey : String) (store : Store)
    (henv : env = some bkt) (hbkt : bkt ≠ "")
    (hget : storeGet store (unquote rawKey) = none) :
    (downloadHandler env { pathParameters := some (some [("file_key", rawKey)]) } store).1 =
      .ok { statusCode := 404,
            headers :=
              [("Access-Control-Allow-Origin", "*"),
               ("Access-Control-Allow-Headers", "*"),
               ("Access-Control-Allow-Methods", "*")],
            body := "\x7b\"error\": \"File not found\"\x7d",
            isBase64Encoded := false } ∧
    applyOps store
      (downloadHandler env { pathParameters := some (some [("file_key", rawKey)]) } store).2 =
      store ∧
    hasPut (downloadHandler env { pathParameters := some (some [("file_key", rawKey)]) } store).2 =
      false := by
  rw [download_miss env bkt rawKey store henv hbkt hget]
  exact ⟨rfl, rfl, rfl⟩

theorem c7_download_not_found_witness :
    (downloadHandler (some "b") { pathParameters := some (some [("file_key", "ghost.txt")]) }
        [("other.txt", [1])]).1 =
      .ok { statusCode := 404,
            headers :=
              [("Access-Control-Allow-Origin", "*"),
               ("Access-Control-Allow-Headers", "*"),
               ("Access-Control-Allow-Methods", "*")],
            body := "\x7b\"error\": \"File not found\"\x7d",
            isBase64Encoded := false } ∧
    applyOps [("other.txt", [1])]
      (downloadHandler (some "b") { pathParameters := some (some [("file_key", "ghost.txt")]) }
        [("other.txt", [1])]).2 = [("other.txt", [1])] ∧
    hasPut (downloadHandler (some "b") { pathParameters := some (some [("file_key", "ghost.txt")]) }
        [("other.txt", [1])]).2 = false :=
  c7_download_not_found (some "b") "b" "ghost.txt" [("other.txt", [1])] rfl (by decide) (by decide)

/-- C8: the upload handler resolves the file-name header case-insensitively:
any casing variant of the key yields the same outcome as the lower-case
key. -/
theorem c8_header_case_insensitive (env : Option String) (k n : String)
    (body? : Option String) (flag : Option Bool) (store : Store)
    (hk : strLower k = "file-name") :
    uploadHandler env { headers := some [(k, n)], body := body?, isBase64Encoded := flag } store =
      uploadHandler env { headers := some [("file-name", n)], body := body?, isBase64Encoded := flag }
        store := by
  have h2 : strLower "file-name" = "file-name" := rfl
  unfold uploadHandler
  cases env with
  | none => rfl
  | some bucket =>
    simp only [Option.getD_some, List.map_cons, List.map_nil, hk, h2]

theorem c8_header_case_insensitive_witness :
    uploadHandler (some "b")
        { headers := some [("File-Name", "f")],
          body := some "\x7b\"file_content\": \"aGk=\"\x7d", isBase64Encoded := none } [] =
      uploadHandler (some "b")
        { headers := some [("file-name", "f")],
          body := some "\x7b\"file_content\": \"aGk=\"\x7d", isBase64Encoded := none } [] :=
  c8_header_case_insensitive (some "b") "File-Name" "f"
    (some "\x7b\"file_content\": \"aGk=\"\x7d") none [] (by decide)

/-- C10: the upload handler reads the bucket configuration before any
request validation: with the bucket setting absent it returns 500 with the
KeyError text as error body, for every event (including those without a
file-name header), while download and presign report the standard
bucket-missing message. -/
theorem c10_upload_bucket_keyerror (e : UploadEvent) (de : DownloadEvent) (pe : PresignEvent)
    (store : Store) (hpe : pe.triggerSource = none) :
    uploadHandler none e store = (uploadErrResp "\x27BUCKET_NAME\x27", store, []) ∧
    (uploadHandler none e store).1.statusCode = 500 ∧
    (uploadHandler none e store).1.body = "\x7b\"error\": \"\x27BUCKET_NAME\x27\"\x7d" ∧
    (downloadHandler none de store).1 =
      .ok (mkCorsResp 500 (jsonErrBody "Bucket name environment variable is missing")) ∧
    (presignHandler none pe).1 =
      .ok (.resp (mkCorsResp 500 (jsonErrBody "Bucket name environment variable is missing"))) ∧
    jsonErrBody "\x27BUCKET_NAME\x27" ≠
      jsonErrBody "Bucket name environment variable is missing" := by
  refine ⟨rfl, rfl, rfl, ?_, ?_, by decide⟩
  · unfold downloadHandler
    rfl
  · unfold presignHandler
    rw [hpe]
    rfl

theorem c10_upload_bucket_keyerror_witness :
    uploadHandler none { headers := some [], body := some "x" } [] =
      (uploadErrResp "\x27BUCKET_NAME\x27", [], []) ∧
    (uploadHandler none { headers := some [], body := some "x" } []).1.statusCode = 500 ∧
    (uploadHandler none { headers := some [], body := some "x" } []).1.body =
      "\x7b\"error\": \"\x27BUCKET_NAME\x27\"\x7d" ∧
    (downloadHandler none { pathParameters := none } []).1 =
      .ok (mkCorsResp 500 (jsonErrBody "Bucket name environment variable is missing")) ∧
    (presignHandler none { triggerSource := none, queryStringParameters := none }).1 =
      .ok (.resp (mkCorsResp 500 (jsonErrBody "Bucket name environment variable is missing"))) ∧
    jsonErrBody "\x27BUCKET_NAME\x27" ≠
      jsonErrBody "Bucket name environment variable is missing" :=
  c10_upload_bucket_keyerror { headers := some [], body := some "x" } { pathParameters := none }
    { triggerSource := none, queryStringParameters := none } [] rfl

/-- C1 counterexample: the round-trip law fails as stated for the empty
byte sequence: its base64 encoding is the empty string, which the upload
handler rejects as falsy, so the subsequent download yields 404, not 200. -/
theorem c1_roundtrip_counterexample :
    respStatus
      (downloadHandler (some "b") { pathParameters := some (some [("file_key", "f")]) }
        (uploadHandler (some "b")
          { headers := some [("file-name", "f")],
            body := some "\x7b\"file_content\": \"\"\x7d" } []).2.1).1 ≠ some 200 := by
  decide

/-- C1 (amended): for every nonempty byte sequence B and nonempty object
name N fixed by percent-decoding, uploading the base64 encoding of B under
N and downloading N from the resulting store yields 200 and a body that
base64-decodes back to B. -/
theorem c1_roundtrip (bkt N bodyStr : String) (B : Bytes) (fields : List (String × JVal))
    (store : Store) (hbkt : bkt ≠ "") (hN : N ≠ "") (hNq : unquote N = N)
    (hB : B ≠ []) (hBb : ∀ b ∈ B, b < 256)
    (hparse : jsonLoads bodyStr = some (.jobj fields))
    (hfc : jGet fields "file_content" = some (.jstr ⟨b64encode B⟩)) :
    ∃ r,
      (downloadHandler (some bkt) { pathParameters := some (some [("file_key", N)]) }
        (uploadHandler (some bkt) { headers := some [("file-name", N)], body := some bodyStr }
          store).2.1).1 = .ok r ∧
      r.statusCode = 200 ∧ b64decodePy r.body = some B := by
  rw [upload_hit bkt N bodyStr fields B store hN hB hparse hfc (b64decodePy_encode B hBb)]
  have hget : storeGet (storePut store N B) (unquote N) = some B := by
    rw [hNq]
    exact storeGet_storePut_same store N B
  rw [show (uploadOkResp N, storePut store N B, [StoreOp.put bkt N B]).2.1 = storePut store N B
    from rfl]
  rw [download_hit (some bkt) bkt N (storePut store N B) B rfl hbkt hget]
  exact ⟨dlOkResp (unquote N) B, rfl, rfl, by rw [hNq]; exact b64decodePy_encode B hBb⟩

theorem c1_roundtrip_witness :
    ∃ r,
      (downloadHandler (some "b") { pathParameters := some (some [("file_key", "hi.txt")]) }
        (uploadHandler (some "b")
          { headers := some [("file-name", "hi.txt")],
            body := some "\x7b\"file_content\": \"aGk=\"\x7d" } []).2.1).1 = .ok r ∧
      r.statusCode = 200 ∧ b64decodePy r.body = some [104, 105] :=
  c1_roundtrip "b" "hi.txt" "\x7b\"file_content\": \"aGk=\"\x7d" [104, 105]
    [("file_content", .jstr "aGk=")] [] (by decide) (by decide) (by decide) (by decide)
    (by decide) (by rfl) (by rfl)

/-- C2 counterexample: an upload request without a file-name header fails
with status 500 (the blanket except branch), not the claimed 400. -/
theorem c2_missing_header_counterexample :
    (uploadHandler (some "b") { headers := some [], body := some "x" } []).1.statusCode ≠ 400 := by
  decide

/-- C2 (amended): for every upload request without a file-name header under
case-insensitive lookup (bucket configured), the handler returns the error
response with message Missing file-name header and status 500, and performs
zero puts to the object store. -/
theorem c2_missing_header (bkt : String) (e : UploadEvent) (store : Store)
    (h : ∀ p ∈ e.headers.getD [], strLower p.1 ≠ "file-name") :
    uploadHandler (some bkt) e store = (uploadErrResp "Missing file-name header", store, []) ∧
    (uploadHandler (some bkt) e store).1.statusCode = 500 ∧
    (uploadHandler (some bkt) e store).1.body =
      "\x7b\"error\": \"Missing file-name header\"\x7d" ∧
    hasPut (uploadHandler (some bkt) e store).2.2 = false := by
  have hnone :
      dictGetLast ((e.headers.getD []).map (fun p => (strLower p.1, p.2))) "file-name" = none := by
    apply dictGetLast_eq_none
    intro p hp
    obtain ⟨q, hq, rfl⟩ := List.mem_map.mp hp
    exact h q hq
  have hmain : uploadHandler (some bkt) e store =
      (uploadErrResp "Missing file-name header", store, []) := by
    unfold uploadHandler
    simp only [hnone, Option.getD_none, if_pos rfl, if_true]
  exact ⟨hmain, by rw [hmain]; rfl, by rw [hmain]; rfl, by rw [hmain]; rfl⟩

theorem c2_missing_header_witness :
    uploadHandler (some "b") { headers := some [("other", "y")], body := some "x" } [] =
      (uploadErrResp "Missing file-name header", [], []) ∧
    (uploadHandler (some "b") { headers := some [("other", "y")], body := some "x" } []).1.statusCode
      = 500 ∧
    (uploadHandler (some "b") { headers := some [("other", "y")], body := some "x" } []).1.body =
      "\x7b\"error\": \"Missing file-name header\"\x7d" ∧
    hasPut (uploadHandler (some "b") { headers := some [("other", "y")], body := some "x" } []).2.2
      = false :=
  c2_missing_header "b" { headers := some [("other", "y")], body := some "x" } [] (by decide)

/-- C3 counterexample: the preflight handler does not carry the wildcard
Access-Control-Allow-Headers header — it enumerates specific headers — so
the claimed invariant fails for it. -/
theorem c3_cors_counterexample :
    hdrGet optionsHandler "Access-Control-Allow-Headers" ≠ some "*" := by
  decide

/-- C3 (amended): every response of the upload, download and presign (API
branch) handlers carries the three wildcard CORS headers; the preflight
handler carries the wildcard origin header (its allow-headers and
allow-methods values enumerate specific names instead). -/
theorem c3_cors_invariant (env : Option String) (ue : UploadEvent) (de : DownloadEvent)
    (pe : PresignEvent) (store : Store) (rd rp : Response)
    (hd : (downloadHandler env de store).1 = .ok rd)
    (hp : (presignHandler env pe).1 = .ok (.resp rp)) :
    corsOk (uploadHandler env ue store).1 ∧ corsOk rd ∧ corsOk rp ∧
    hdrGet optionsHandler "Access-Control-Allow-Origin" = some "*" := by
  refine ⟨?_, ?_, ?_, rfl⟩
  · rcases upload_resp_shape env ue store with ⟨m, hm⟩ | ⟨n, hn⟩
    · rw [hm]; exact corsOk_uploadErrResp m
    · rw [hn]; exact corsOk_uploadOkResp n
  · rcases download_ok_shape env de store rd hd with ⟨st, b, rfl⟩ | ⟨fk, c, rfl⟩
    · exact corsOk_mkCorsResp st b
    · exact corsOk_dlOkResp fk c
  · rcases presign_ok_shape env pe rp hp with ⟨st, b, rfl⟩ | ⟨u, rfl⟩
    · exact corsOk_mkCorsResp st b
    · exact corsOk_presignOkResp u

theorem c3_cors_invariant_witness :
    corsOk (uploadHandler (some "b") { headers := some [], body := some "x" } []).1 ∧
    corsOk (mkCorsResp 400 (jsonErrBody "Missing file_key path parameter")) ∧
    corsOk (mkCorsResp 400 (jsonErrBody "file_name query parameter is required")) ∧
    hdrGet optionsHandler "Access-Control-Allow-Origin" = some "*" :=
  c3_cors_invariant (some "b") { headers := some [], body := some "x" }
    { pathParameters := none } { triggerSource := none, queryStringParameters := none } []
    (mkCorsResp 400 (jsonErrBody "Missing file_key path parameter"))
    (mkCorsResp 400 (jsonErrBody "file_name query parameter is required")) rfl rfl

/-- C5 counterexample: with pathParameters present but null, the download
handler lets a TypeError escape instead of returning a structured response,
so total error recovery fails as claimed. -/
theorem c5_total_recovery_counterexample :
    respStatus (downloadHandler (some "b") { pathParameters := some none } []).1 = none := by
  decide

/-- C5 (amended): every upload invocation returns a structured response
(status 200 or 500); the download and presign handlers return a structured
response provided their pathParameters (respectively queryStringParameters)
field is not present-but-null — in exactly that case a TypeError
(respectively AttributeError) escapes the handler. -/
theorem c5_total_recovery (env : Option String) (ue : UploadEvent) (de : DownloadEvent)
    (pe : PresignEvent) (store : Store)
    (hd : de.pathParameters ≠ some none)
    (hp : pe.queryStringParameters ≠ some none) :
    ((uploadHandler env ue store).1.statusCode = 200 ∨
      (uploadHandler env ue store).1.statusCode = 500) ∧
    (∃ r, (downloadHandler env de store).1 = .ok r) ∧
    (∃ o, (presignHandler env pe).1 = .ok o) := by
  refine ⟨?_, download_total env de store hd, presign_total env pe hp⟩
  rcases upload_resp_shape env ue store with ⟨m, hm⟩ | ⟨n, hn⟩
  · rw [hm]; exact .inr rfl
  · rw [hn]; exact .inl rfl

theorem c5_total_recovery_witness :
    (((uploadHandler (some "b") { headers := some [], body := some "x" } []).1.statusCode = 200 ∨
      (uploadHandler (some "b") { headers := some [], body := some "x" } []).1.statusCode = 500)) ∧
    (∃ r, (downloadHandler (some "b") { pathParameters := none } []).1 = .ok r) ∧
    (∃ o, (presignHandler (some "b")
      { triggerSource := none, queryStringParameters := none }).1 = .ok o) :=
  c5_total_recovery (some "b") { headers := some [], body := some "x" }
    { pathParameters := none } { triggerSource := none, queryStringParameters := none } []
    (by decide) (by decide)

/-- C9 counterexample: a body that lacks the file_content field produces
the KeyError text as error message, not the claimed Missing file_content in
body message. -/
theorem c9_file_content_counterexample :
    (uploadHandler (some "b")
        { headers := some [("file-name", "f")], body := some "\x7b\x7d" } []).1.body ≠
      "\x7b\"error\": \"Missing file_content in body\"\x7d" := by
  decide

/-- C9 (amended): with bucket configured and file-name header present, a
body whose file_content field is present but falsy yields the error
Missing file_content in body, while a body lacking the field yields the
KeyError text as message; in both cases the handler performs zero puts. -/
theorem c9_file_content_validation (bkt N bodyStr : String) (fields : List (String × JVal))
    (store : Store) (v : JVal) (hN : N ≠ "")
    (hparse : jsonLoads bodyStr = some (.jobj fields)) :
    (jGet fields "file_content" = some v → jFalsy v = true →
      uploadHandler (some bkt) { headers := some [("file-name", N)], body := some bodyStr }
        store = (uploadErrResp "Missing file_content in body", store, [])) ∧
    (jGet fields "file_content" = none →
      uploadHandler (some bkt) { headers := some [("file-name", N)], body := some bodyStr }
        store = (uploadErrResp "\x27file_content\x27", store, [])) := by
  have hlow : strLower "file-name" = "file-name" := rfl
  have hfn : dictGetLast [("file-name", N)] "file-name" = some N := by
    simp [dictGetLast]
  constructor
  · intro hv hfal
    unfold uploadHandler
    simp only [Option.getD_some, List.map_cons, List.map_nil, hlow, hfn, if_neg hN,
      Option.getD_none, Bool.false_eq_true, if_false, hparse, hv, hfal, if_true]
  · intro hv
    unfold uploadHandler
    simp only [Option.getD_some, List.map_cons, List.map_nil, hlow, hfn, if_neg hN,
      Option.getD_none, Bool.false_eq_true, if_false, hparse, hv]

theorem c9_file_content_validation_witness :
    uploadHandler (some "b")
        { headers := some [("file-name", "f")],
          body := some "\x7b\"file_content\": \"\"\x7d" } [] =
      (uploadErrResp "Missing file_content in body", [], []) :=
  (c9_file_content_validation "b" "f" "\x7b\"file_content\": \"\"\x7d"
    [("file_content", .jstr "")] [] (.jstr "") (by decide) (by rfl)).1 (by rfl) (by rfl)

end FileSharing
